import Mathlib

/-!
Shallow embedding of `src/process_data.py` from the repository
`SARS2_RBD_Ab_escape_maps`, the validation-and-merge pipeline for
per-study antibody escape data, together with theorems settling the
specification claims about it.

Conventions of the embedding:
* CSV tables are `Table` values: an explicit column-name list plus rows of
  string cells (cells are kept as strings; numeric rendering is not at issue
  in any claim).  A missing cell reads as `""`.
* YAML scalars that the code type-tests (`isinstance(year, int)`) are `YVal`:
  either a Python `int` or any other scalar kept as a string.
* Python exceptions become the `PyErr` error type of an `Except` result.
* Parsing mechanics, file enumeration and file writing (the spec's "thin I/O
  wrappers") are modelled by taking the parsed metadata record, the parsed
  table and the directory listing as inputs, and by returning the two output
  tables instead of writing them.  The directory listing is a list of
  subdirectory basenames plus a map `fs` from basename to that directory's
  parsed `study.yml` and `data.csv` contents.
-/

/-- Python exception values that `process_data.py` can raise. -/
inductive PyErr where
  | valueError (msg : String)
  | attributeError (msg : String)
  | assertionError
  | indexError (msg : String)
  | mergeError (msg : String)
  | undefinedVariableError (msg : String)
  deriving DecidableEq

/-- Scalar YAML value as loaded by `ruamel.yaml`: a Python `int`, or any
other scalar kept as its string form.  Only ints pass `isinstance(year, int)`
(source line 14). -/
inductive YVal where
  | int (n : Int)
  | str (s : String)
  deriving DecidableEq

/-- Python `str()` / f-string rendering of a scalar. -/
def pyStr : YVal → String
  | .int n => toString n
  | .str s => s

/-- Condition descriptor: the sub-mapping of one entry of the metadata
`conditions` mapping, with keys `type`, `subtype`, `year` (presence of the
three keys, checked at source lines 41-44, is modelled by the record). -/
structure CondD where
  ctype : String
  subtype : String
  year : YVal
  deriving DecidableEq

/-- Parsed `study.yml` metadata.  The record has exactly the eight required
top-level keys of source lines 24-33; the key-set check of line 34 is
modelled upstream by the record type.  `conditions` is the metadata
conditions mapping as an ordered association list (Python dicts preserve
insertion order and have unique keys). -/
structure StudyYaml where
  study_title : String
  study_first_author : String
  study_year : YVal
  study_journal : String
  study_url : String
  spike : String
  notes : String
  conditions : List (String × CondD)
  deriving DecidableEq

/-- A parsed CSV table / pandas DataFrame: column names plus rows of cells. -/
structure Table where
  cols : List String
  rows : List (List String)
  deriving DecidableEq

/-- Position of a column name in a column list (`None` when absent). -/
def colIndex (cols : List String) (c : String) : Option Nat :=
  match cols with
  | [] => none
  | c0 :: rest => if c0 = c then some 0 else (colIndex rest c).map (· + 1)

/-- Values of column `c` of a table, in row order (`data[c]` as a list);
empty when the column is absent. -/
def colVals (t : Table) (c : String) : List String :=
  match colIndex t.cols c with
  | some i => t.rows.map (fun r => r.getD i "")
  | none => []

/-- Python `set(a) == set(b)` for two lists of strings. -/
def sameSet (a b : List String) : Bool :=
  a.all (fun x => decide (x ∈ b)) && b.all (fun x => decide (x ∈ a))

/-- Prefix test on character lists. -/
def isPre : List Char → List Char → Bool
  | [], _ => true
  | _ :: _, [] => false
  | a :: as, b :: bs => decide (a = b) && isPre as bs

/-- Python `str.startswith(pre)`, computed over the character lists (the
built-in `String.startsWith` does not reduce inside the kernel). -/
def pyStartsWith (s pre : String) : Bool := isPre pre.toList s.toList

/-- Lexicographic comparison by character code over character lists: the
order Python's `sorted` uses on `str` values. -/
def strLeChars : List Char → List Char → Bool
  | [], _ => true
  | _ :: _, [] => false
  | a :: as, b :: bs =>
    if a.val.toNat < b.val.toNat then true
    else if b.val.toNat < a.val.toNat then false
    else strLeChars as bs

/-- Lexicographic string order by character code. -/
def strLe (a b : String) : Bool := strLeChars a.toList b.toList

/-- Source lines 12-16, `valid_year`: `True` iff an `int` between 2000 and
2030; a non-int raises `ValueError(f"invalid {year=}")`. -/
def valid_year (year : YVal) : Except PyErr Bool :=
  match year with
  | .int n => .ok (decide (2000 ≤ n ∧ n ≤ 2030))
  | .str s => .error (.valueError ("invalid year=" ++ s))

/-- Source lines 45-52: the subtype domain determined by `d['type']`, or
`ValueError` for a type outside the three enumerated values. -/
def validSubtypesFor (t : String) : Except PyErr (List String) :=
  if t = "antibody" ∨ t = "antibody cocktail" then
    .ok ["clinical antibody", "not clinical antibody"]
  else if t = "serum" then
    .ok ["convalescent serum", "Moderna vaccine serum", "Pfizer vaccine serum"]
  else
    .error (.valueError ("Invalid type " ++ t))

/-- One row of the per-study conditions DataFrame (source lines 59-62):
columns `condition, condition_type, condition_subtype, condition_year`.
The year cell is the raw YAML value appended at source line 59. -/
structure CondRow where
  condition : String
  condition_type : String
  condition_subtype : String
  condition_year : YVal
  deriving DecidableEq

/-- Source lines 39-62: validate each condition of the metadata mapping in
order (type, then subtype, then year) and build the conditions table. -/
def resolveConditions : List (String × CondD) → Except PyErr (List CondRow)
  | [] => .ok []
  | (c, d) :: rest =>
    match validSubtypesFor d.ctype with
    | .error e => .error e
    | .ok valid_subtypes =>
      if d.subtype ∈ valid_subtypes then
        match valid_year d.year with
        | .error e => .error e
        | .ok true =>
          match resolveConditions rest with
          | .error e => .error e
          | .ok rs => .ok (⟨c, d.ctype, d.subtype, d.year⟩ :: rs)
        | .ok false => .error (.valueError ("Invalid year for condition " ++ c))
      else
        .error (.valueError ("Invalid subtype for condition " ++ c))

/-- Source lines 66-67: the measurement table must have a `condition`
column. -/
def checkConditionCol (d : Table) : Except PyErr Unit :=
  if "condition" ∈ d.cols then .ok ()
  else .error (.valueError ("data.csv lacks column condition"))

/-- Source lines 68-72: the set of `condition` values of the measurement
table must equal the set of condition identifiers of the metadata.  On a
mismatch the source executes
`raise ValueError(f"..." + set(data['condition'].symmetric_difference(set(conditions['condition']))))`;
evaluating that argument fails first: `data['condition']` is a pandas
`Series`, which has no attribute `symmetric_difference`, so Python raises
`AttributeError` (and even with that fixed, `str + set` would raise
`TypeError`).  The intended `ValueError` reporting the symmetric difference
is never constructed. -/
def refIntegrityCheck (condRows : List CondRow) (d : Table) : Except PyErr Unit :=
  if sameSet (colVals d "condition") (condRows.map CondRow.condition) then .ok ()
  else .error (.attributeError "Series object has no attribute symmetric_difference")

/-- The five required measurement-table columns (source line 73). -/
def requiredCols : List String :=
  ["condition", "site", "wildtype", "mutation", "mut_escape"]

/-- Source lines 74-76: raise on the first required column missing from the
measurement table. -/
def checkRequiredCols (d : Table) : Except PyErr Unit :=
  match requiredCols.find? (fun c => !decide (c ∈ d.cols)) with
  | some c => .error (.valueError ("data.csv lacks column " ++ c))
  | none => .ok ()

/-- Source line 77, `data = data[cols]`: keep exactly the required columns,
in their order.  (Only evaluated after `checkRequiredCols` succeeded.) -/
def projectCols (d : Table) : Table :=
  ⟨requiredCols,
   d.rows.map (fun r => requiredCols.map (fun c =>
     match colIndex d.cols c with
     | some i => r.getD i ""
     | none => ""))⟩

/-- Column list of the joined per-study frame: the conditions-frame columns
followed by the non-key measurement columns (pandas merge key order). -/
def mergedColsList : List String :=
  ["condition", "condition_type", "condition_subtype", "condition_year",
   "site", "wildtype", "mutation", "mut_escape"]

/-- Source line 78, `conditions.merge(data, on='condition',
validate='one_to_many')`: an inner join that first validates that the left
(conditions) keys are unique, raising `MergeError` otherwise; output rows
follow the left frame's key order, and within one key the measurement rows
keep their order. -/
def mergeConditions (condRows : List CondRow) (d : Table) : Except PyErr Table :=
  if (condRows.map CondRow.condition).Nodup then
    .ok ⟨mergedColsList,
         condRows.flatMap (fun c =>
           (d.rows.filter (fun r => decide (r.getD 0 "" = c.condition))).map
             (fun r => [c.condition, c.condition_type, c.condition_subtype,
                        pyStr c.condition_year] ++ r.drop 1))⟩
  else
    .error (.mergeError "Merge keys are not unique in left dataset")

/-- Source lines 64-78, the `# process the data` block: condition-column
check, referential-integrity check, required-column checks, projection,
join. -/
def dataStage (condRows : List CondRow) (data : Table) : Except PyErr Table :=
  match checkConditionCol data with
  | .error e => .error e
  | .ok _ =>
    match refIntegrityCheck condRows data with
    | .error e => .error e
    | .ok _ =>
      match checkRequiredCols data with
      | .error e => .error e
      | .ok _ => mergeConditions condRows (projectCols data)

/-- Source lines 84-85: `if not valid_year(study_year): raise ValueError`.
Note this runs only after the whole data block of lines 64-78. -/
def yearGate (y : YVal) : Except PyErr Unit :=
  match valid_year y with
  | .error e => .error e
  | .ok true => .ok ()
  | .ok false => .error (.valueError ("invalid study_year " ++ pyStr y))

/-- Source lines 19-88, `process_study`: returns
`(first_author, study_year, study_journal, study_url, joined frame)`. -/
def process_study (study : StudyYaml) (data : Table) :
    Except PyErr (String × YVal × String × String × Table) :=
  match resolveConditions study.conditions with
  | .error e => .error e
  | .ok condRows =>
    match dataStage condRows data with
    | .error e => .error e
    | .ok merged =>
      match yearGate study.study_year with
      | .error e => .error e
      | .ok _ =>
        .ok (study.study_first_author, study.study_year,
             study.study_journal, study.study_url, merged)

/-- One registry entry: the 5-tuple appended at source line 127,
`(study, first_author, year, jrnl, url)`. -/
structure RegEntry where
  study : String
  first_author : String
  year : YVal
  journal : String
  url : String
  deriving DecidableEq

/-- Accumulator of the loop of source lines 102-128: the growing
`merged_data` frame and the `studies` registry list. -/
structure LoopState where
  merged : Table
  studies : List RegEntry
  deriving DecidableEq

/-- Initial state: `merged_data = pd.DataFrame()` (no columns, no rows) and
`studies = []` (source lines 97-98). -/
def initState : LoopState := ⟨⟨[], []⟩, []⟩

/-- Python `==` between a `str` and a 5-tuple: `str.__eq__` returns
`NotImplemented` on a tuple and so does `tuple.__eq__` on a string, hence
the comparison is always `False`. -/
def pyEqStrTuple (_s : String) (_e : RegEntry) : Bool := false

/-- Source line 124, `study in studies`: list membership via Python `==`.
`studies` holds 5-tuples (appended at line 127) while `study` is a string,
so each element comparison is a `str`-vs-`tuple` equality and the
membership test is always `False`: the `duplicate study` branch of line 125
is unreachable. -/
def study_in_studies (study : String) (studies : List RegEntry) : Bool :=
  studies.any (pyEqStrTuple study)

/-- Source line 126,
`assert not len(merged_data) or study not in merged_data['study'].unique()`:
succeeds iff the accumulated frame is still empty or does not yet carry this
study identifier; otherwise `AssertionError`. -/
def assertCheck (merged : Table) (study : String) : Except PyErr Unit :=
  if merged.rows.length = 0 ∨ study ∉ colVals merged "study" then .ok ()
  else .error .assertionError

/-- Source line 123, `data = data.assign(study=study)`: append a `study`
column holding the study identifier. -/
def assignStudy (t : Table) (s : String) : Table :=
  ⟨t.cols ++ ["study"], t.rows.map (fun r => r ++ [s])⟩

/-- Source line 128, `merged_data.append(data)`: appending to the initial
empty no-column frame yields `data`; afterwards every appended frame has the
same nine columns, so rows are concatenated. -/
def dfAppend (a b : Table) : Table :=
  if a.cols.isEmpty then b else ⟨a.cols, a.rows ++ b.rows⟩

/-- Message of the naming-convention error of source lines 119-121. -/
def namingMsg (subdir : String) (yr : YVal) (fa : String) : String :=
  subdir ++ " should start with " ++ pyStr yr ++ "_" ++ fa ++
    " to reflect year and first author"

/-- Source lines 102-128, one iteration of the per-study loop: run
`process_study`, check the directory-name convention (lines 117-121), tag
the rows with the study identifier (line 123), run the duplicate checks
(lines 124-126), then register the study and accumulate its rows.  The
study identifier is the subdirectory basename (line 117); `fs` maps it to
the directory's parsed `study.yml` and `data.csv`. -/
def stepStudy (fs : String → StudyYaml × Table) (st : LoopState)
    (subdir : String) : Except PyErr LoopState :=
  match process_study (fs subdir).1 (fs subdir).2 with
  | .error e => .error e
  | .ok (fa, yr, jrnl, url, d0) =>
    if pyStartsWith subdir (pyStr yr ++ "_" ++ fa ++ "_") then
      let data := assignStudy d0 subdir
      if study_in_studies subdir st.studies then
        .error (.valueError ("duplicate study " ++ subdir))
      else
        match assertCheck st.merged subdir with
        | .error e => .error e
        | .ok _ =>
          .ok ⟨dfAppend st.merged data,
               st.studies ++ [⟨subdir, fa, yr, jrnl, url⟩]⟩
    else
      .error (.valueError (namingMsg subdir yr fa))

/-- Source line 131,
`merged_data.query('condition_type != "antibody cocktail"')`: pandas
resolves the plain name `condition_type` against the frame's columns and
raises `UndefinedVariableError` when it is not one (in particular on the
empty no-column frame of a run with zero studies); otherwise it keeps the
rows whose value differs from `"antibody cocktail"`. -/
def queryFilter (t : Table) : Except PyErr Table :=
  match colIndex t.cols "condition_type" with
  | none => .error (.undefinedVariableError "name condition_type is not defined")
  | some i =>
    .ok ⟨t.cols, t.rows.filter (fun r => !decide (r.getD i "" = "antibody cocktail"))⟩

/-- Grouping key of the citation computation (source lines 143-146):
`['first_author', 'year', 'journal']`. -/
def regKey (e : RegEntry) : String × YVal × String :=
  (e.first_author, e.year, e.journal)

/-- Python `string.ascii_lowercase` (source line 149). -/
def asciiLowercase : List Char := "abcdefghijklmnopqrstuvwxyz".toList

/-- Source lines 147-150: the per-row suffix, `''` for a group of size one,
otherwise `string.ascii_lowercase[index]`, where indexing past `'z'` raises
`IndexError`. -/
def citeSuffix (ndup idx : Nat) : Except PyErr String :=
  if ndup < 2 then .ok ""
  else
    match asciiLowercase[idx]? with
    | some c => .ok (String.mk [c])
    | none => .error (.indexError "string index out of range")

/-- Source lines 151-152: the citation string
`first_author + ' et al. ' + journal + ' (' + str(year) + suffix + ')'`. -/
def citeStr (e : RegEntry) (sfx : String) : String :=
  e.first_author ++ " et al. " ++ e.journal ++ " (" ++ pyStr e.year ++ sfx ++ ")"

/-- Rows of the citation table (source lines 141-154).  For the entry at
overall position `i` the pandas `transform('cumcount')` value is the number
of earlier entries sharing its grouping key and `transform('count')` is the
total number of entries sharing it; `prev` holds the entries before the
current one.  Row order is the registry order. -/
def citeRows (prev : List RegEntry) : List RegEntry → Except PyErr (List (List String))
  | [] => .ok []
  | e :: rest =>
    match citeSuffix
        (prev.countP (fun p => decide (regKey p = regKey e)) + 1 +
          rest.countP (fun p => decide (regKey p = regKey e)))
        (prev.countP (fun p => decide (regKey p = regKey e))) with
    | .error err => .error err
    | .ok sfx =>
      match citeRows (prev ++ [e]) rest with
      | .error err => .error err
      | .ok rs => .ok ([e.study, citeStr e sfx, e.url] :: rs)

/-- Source lines 141-156: build the `studies.csv` table with columns
`study, citation, url`, in registry order. -/
def buildCitations (reg : List RegEntry) : Except PyErr Table :=
  match citeRows [] reg with
  | .error e => .error e
  | .ok rs => .ok ⟨["study", "citation", "url"], rs⟩

/-- Source lines 99-101: the study subdirectories, hidden names dropped and
the rest sorted (sorting the joined paths orders them by basename, the
`data_dir` part being a shared prefix). -/
def sortedSubdirs (listing : List String) : List String :=
  List.insertionSort (fun a b => strLe a b = true)
    (listing.filter (fun d => !(pyStartsWith d ".")))

/-- Source lines 91-156, `process_data`: run the per-study loop over the
sorted directory listing, apply the antibody-cocktail exclusion filter to
the merged frame, build the citation table, and return the two output
tables (`escape_data.csv`, `studies.csv`). -/
def process_data (listing : List String) (fs : String → StudyYaml × Table) :
    Except PyErr (Table × Table) :=
  match (sortedSubdirs listing).foldlM (stepStudy fs) initState with
  | .error e => .error e
  | .ok st =>
    match queryFilter st.merged with
    | .error e => .error e
    | .ok escape =>
      match buildCitations st.studies with
      | .error e => .error e
      | .ok citeTable => .ok (escape, citeTable)

def exCondC1 : CondD := ⟨"antibody", "clinical antibody", .int 2020⟩
def exCondC2 : CondD := ⟨"antibody cocktail", "clinical antibody", .int 2020⟩
def exYaml : StudyYaml :=
  ⟨"Escape map", "Smith", .int 2021, "Nature", "https://example.org",
   "Wuhan-Hu-1", "none", [("C1", exCondC1), ("C2", exCondC2)]⟩
def exCsv : Table :=
  ⟨["condition", "site", "wildtype", "mutation", "mut_escape"],
   [["C1", "484", "E", "K", "0.5"], ["C2", "490", "F", "L", "0.9"]]⟩
def exFs : String → StudyYaml × Table := fun _ => (exYaml, exCsv)

/-- Conditions table of `exYaml`, as produced by `resolveConditions`. -/
def exCondRows : List CondRow :=
  [⟨"C1", "antibody", "clinical antibody", .int 2020⟩,
   ⟨"C2", "antibody cocktail", "clinical antibody", .int 2020⟩]

/-- Joined frame of `exYaml` with `exCsv`. -/
def exMerged : Table :=
  ⟨mergedColsList,
   [["C1", "antibody", "clinical antibody", "2020", "484", "E", "K", "0.5"],
    ["C2", "antibody cocktail", "clinical antibody", "2020", "490", "F", "L", "0.9"]]⟩

/-- Merged escape table of the single-study run over `exFs`: the antibody
cocktail row of condition `C2` is filtered out. -/
def exEscape : Table :=
  ⟨mergedColsList ++ ["study"],
   [["C1", "antibody", "clinical antibody", "2020", "484", "E", "K", "0.5",
     "2021_Smith_A"]]⟩

/-- Citation table of the single-study run over `exFs`. -/
def exCite : Table :=
  ⟨["study", "citation", "url"],
   [["2021_Smith_A", "Smith et al. Nature (2021)", "https://example.org"]]⟩

/-- Measurement table with an extra column (`barcode`) beyond the required
five. -/
def exCsvExtra : Table :=
  ⟨["condition", "site", "wildtype", "mutation", "mut_escape", "barcode"],
   [["C1", "484", "E", "K", "0.5", "b1"], ["C2", "490", "F", "L", "0.9", "b2"]]⟩

/-- Whether `study_year` is an integer in the valid range: the property the
spec's Validate stage is supposed to enforce. -/
def studyYearOk (y : YVal) : Bool :=
  match y with
  | .int n => decide (2000 ≤ n ∧ n ≤ 2030)
  | .str _ => false

/-- The error `process_study` raises for an invalid `study_year` once the
data block has succeeded (source lines 84-85, via `valid_year`). -/
def yearErr (y : YVal) : PyErr :=
  match y with
  | .int _ => .valueError ("invalid study_year " ++ pyStr y)
  | .str s => .valueError ("invalid year=" ++ s)

/-- Metadata identical to `exYaml` but with the out-of-range
`study_year: 1999`. -/
def c3Yaml : StudyYaml :=
  ⟨"Escape map", "Smith", .int 1999, "Nature", "https://example.org",
   "Wuhan-Hu-1", "none", [("C1", exCondC1), ("C2", exCondC2)]⟩

/-- Measurement table lacking the required `site` column (condition values
still match the metadata). -/
def c3Csv : Table :=
  ⟨["condition", "wildtype", "mutation", "mut_escape"],
   [["C1", "E", "K", "0.5"], ["C2", "F", "L", "0.9"]]⟩

/-- Measurement table referencing a condition `C3` that the metadata of
`exYaml` does not define. -/
def c1Csv : Table :=
  ⟨["condition", "site", "wildtype", "mutation", "mut_escape"],
   [["C1", "484", "E", "K", "0.5"], ["C3", "490", "F", "L", "0.9"]]⟩

/-- Suffix of one registry entry as the claim words it: no suffix when the
entry's (first_author, year, journal) group has a single member, otherwise
the lowercase letter of the entry's occurrence rank within its group, in
registry order (`i` is the entry's position in the registry).  Spec-side
definition, to be compared with the source-side `citeRows`. -/
def specSuffix (reg : List RegEntry) (i : Nat) (e : RegEntry) : String :=
  if reg.countP (fun p => decide (regKey p = regKey e)) < 2 then ""
  else String.mk [asciiLowercase.getD
    ((reg.take i).countP (fun p => decide (regKey p = regKey e))) 'a']

/-- Citation rows as the claim describes them: one row per registry entry,
in the registry's original order, with citation
"{first_author} et al. {journal} ({year}{suffix})".  Spec-side
definition. -/
def citationRowsSpec (reg : List RegEntry) : List (List String) :=
  (reg.enumFrom 0).map (fun ie =>
    [ie.2.study, citeStr ie.2 (specSuffix reg ie.1 ie.2), ie.2.url])

/-- Registry entry repeated in the C4 counterexample. -/
def smithEntry : RegEntry := ⟨"2021_Smith_A", "Smith", .int 2021, "Nature", "u"⟩

/-- Registry used by the C4 witness: two studies sharing (Smith, 2021,
Nature) and one lone study. -/
def c4Reg : List RegEntry :=
  [⟨"2021_Smith_A", "Smith", .int 2021, "Nature", "u1"⟩,
   ⟨"2021_Smith_B", "Smith", .int 2021, "Nature", "u2"⟩,
   ⟨"2020_Jones_A", "Jones", .int 2020, "Science", "u3"⟩]

theorem colIndex_eq_none_iff (cols : List String) (c : String) :
    colIndex cols c = none ↔ c ∉ cols := by
  induction cols with
  | nil => simp [colIndex]
  | cons c0 rest ih =>
    by_cases h : c0 = c
    · simp [colIndex, h]
    · simp only [colIndex, if_neg h, Option.map_eq_none', ih, List.mem_cons]
      constructor
      · rintro hn (hc | hc)
        · exact h hc.symm
        · exact hn hc
      · intro hn hc
        exact hn (Or.inr hc)

theorem resolveConditions_keys (conds : List (String × CondD))
    (rs : List CondRow) (h : resolveConditions conds = .ok rs) :
    rs.map CondRow.condition = conds.map Prod.fst := by
  induction conds generalizing rs with
  | nil => simp [resolveConditions] at h; simp [← h]
  | cons cd rest ih =>
    obtain ⟨c, d⟩ := cd
    unfold resolveConditions at h
    split at h
    · cases h
    · split at h
      · split at h
        · cases h
        · split at h
          · cases h
          · rename_i rs' hrs'
            cases h
            simpa using ih rs' hrs'
        · cases h
      · cases h

theorem sameSet_mem_iff (a b : List String) (h : sameSet a b = true)
    (x : String) : x ∈ a ↔ x ∈ b := by
  unfold sameSet at h
  rw [Bool.and_eq_true, List.all_eq_true, List.all_eq_true] at h
  constructor
  · intro hx; simpa using h.1 x hx
  · intro hx; simpa using h.2 x hx

theorem projectCols_cond_vals (d : Table) (i : Nat)
    (h : colIndex d.cols "condition" = some i) :
    (projectCols d).rows.map (fun r => r.getD 0 "") = colVals d "condition" := by
  unfold projectCols colVals requiredCols
  rw [h, List.map_map]
  apply List.map_congr_left
  intro r _
  simp [h]

theorem flatMap_filter_length {α : Type} (f : α → String) (keys : List String) :
    ∀ rows : List α, keys.Nodup → (∀ r ∈ rows, f r ∈ keys) →
      (keys.flatMap (fun k => rows.filter (fun r => decide (f r = k)))).length
        = rows.length := by
  induction keys with
  | nil =>
    intro rows _ hcov
    cases rows with
    | nil => simp
    | cons r rs => simpa using hcov r (by simp)
  | cons k ks ih =>
    intro rows hnd hcov
    have hk : k ∉ ks := (List.nodup_cons.mp hnd).1
    have hnd' : ks.Nodup := (List.nodup_cons.mp hnd).2
    have hcov' : ∀ r ∈ rows.filter (fun r => !decide (f r = k)), f r ∈ ks := by
      intro r hr
      rw [List.mem_filter] at hr
      rcases List.mem_cons.mp (hcov r hr.1) with h1 | h1
      · exact absurd h1 (by simpa using hr.2)
      · exact h1
    have htail : ∀ k' ∈ ks,
        (rows.filter (fun r => decide (f r = k'))).length =
          ((rows.filter (fun r => !decide (f r = k))).filter
            (fun r => decide (f r = k'))).length := by
      intro k' hk'
      have hne : k' ≠ k := fun h => hk (h ▸ hk')
      congr 1
      rw [List.filter_filter]
      apply List.filter_congr
      intro r _
      by_cases h : f r = k'
      · simp [h, hne]
      · simp [h]
    calc ((k :: ks).flatMap (fun k => rows.filter (fun r => decide (f r = k)))).length
        = (rows.filter (fun r => decide (f r = k))).length +
            (ks.map (fun k' =>
              (rows.filter (fun r => decide (f r = k'))).length)).sum := by
          simp [List.length_flatMap, Function.comp_def]
      _ = (rows.filter (fun r => decide (f r = k))).length +
            (ks.map (fun k' =>
              ((rows.filter (fun r => !decide (f r = k))).filter
                (fun r => decide (f r = k'))).length)).sum := by
          rw [List.map_congr_left htail]
      _ = (rows.filter (fun r => decide (f r = k))).length +
            (ks.flatMap (fun k' =>
              (rows.filter (fun r => !decide (f r = k))).filter
                (fun r => decide (f r = k')))).length := by
          simp [List.length_flatMap, Function.comp_def]
      _ = (rows.filter (fun r => decide (f r = k))).length +
            (rows.filter (fun r => !decide (f r = k))).length := by
          rw [ih _ hnd' hcov']
      _ = rows.length := (List.length_eq_length_filter_add _).symm

theorem checkConditionCol_ok (d : Table) (u : Unit)
    (h : checkConditionCol d = .ok u) : "condition" ∈ d.cols := by
  unfold checkConditionCol at h
  split at h
  · assumption
  · cases h

theorem refIntegrityCheck_ok (condRows : List CondRow) (d : Table) (u : Unit)
    (h : refIntegrityCheck condRows d = .ok u) :
    sameSet (colVals d "condition") (condRows.map CondRow.condition) = true := by
  unfold refIntegrityCheck at h
  split at h
  · assumption
  · cases h

theorem mergeConditions_ok (condRows : List CondRow) (d : Table) (t : Table)
    (h : mergeConditions condRows d = .ok t) :
    (condRows.map CondRow.condition).Nodup ∧
    t = ⟨mergedColsList,
         condRows.flatMap (fun c =>
           (d.rows.filter (fun r => decide (r.getD 0 "" = c.condition))).map
             (fun r => [c.condition, c.condition_type, c.condition_subtype,
                        pyStr c.condition_year] ++ r.drop 1))⟩ := by
  unfold mergeConditions at h
  split at h
  · refine ⟨by assumption, ?_⟩
    injection h with h'
    exact h'.symm
  · cases h

theorem dataStage_ok (condRows : List CondRow) (data : Table) (merged : Table)
    (h : dataStage condRows data = .ok merged) :
    "condition" ∈ data.cols ∧
    sameSet (colVals data "condition") (condRows.map CondRow.condition) = true ∧
    mergeConditions condRows (projectCols data) = .ok merged := by
  unfold dataStage at h
  split at h
  · cases h
  · rename_i u hc
    split at h
    · cases h
    · rename_i u2 hr
      split at h
      · cases h
      · exact ⟨checkConditionCol_ok _ _ hc, refIntegrityCheck_ok _ _ _ hr, h⟩

theorem process_study_ok (study : StudyYaml) (data : Table)
    (fa jr url : String) (yr : YVal) (tbl : Table)
    (h : process_study study data = .ok (fa, yr, jr, url, tbl)) :
    ∃ condRows, resolveConditions study.conditions = .ok condRows ∧
      dataStage condRows data = .ok tbl ∧
      yearGate study.study_year = .ok () ∧
      fa = study.study_first_author ∧ yr = study.study_year ∧
      jr = study.study_journal ∧ url = study.study_url := by
  unfold process_study at h
  split at h
  · cases h
  · rename_i condRows hres
    split at h
    · cases h
    · rename_i merged hds
      split at h
      · cases h
      · rename_i u hyg
        injection h with h'
        simp only [Prod.mk.injEq] at h'
        obtain ⟨hfa, hyr, hjr, hurl, htbl⟩ := h'
        exact ⟨condRows, hres, htbl ▸ hds, by rw [← hyg], hfa.symm, hyr.symm,
               hjr.symm, hurl.symm⟩

/-- Claim C7: for every valid study (one on which `process_study` succeeds),
the set of condition identifiers appearing in the joined table equals
exactly the set of condition identifiers defined in the metadata conditions
mapping, and the join produces exactly one enriched row per measurement
row, neither dropping nor duplicating rows. -/
theorem c7_join_round_trip (study : StudyYaml) (data : Table)
    (fa jr url : String) (yr : YVal) (tbl : Table)
    (h : process_study study data = .ok (fa, yr, jr, url, tbl)) :
    (∀ c, c ∈ colVals tbl "condition" ↔ c ∈ study.conditions.map Prod.fst) ∧
    tbl.rows.length = data.rows.length := by
  obtain ⟨condRows, hres, hds, -, -, -⟩ := process_study_ok _ _ _ _ _ _ _ h
  obtain ⟨hcc, hsame, hmerge⟩ := dataStage_ok _ _ _ hds
  obtain ⟨hnd, htbl⟩ := mergeConditions_ok _ _ _ hmerge
  have hkeys : condRows.map CondRow.condition = study.conditions.map Prod.fst :=
    resolveConditions_keys _ _ hres
  obtain ⟨i, hci⟩ : ∃ i, colIndex data.cols "condition" = some i := by
    cases hi : colIndex data.cols "condition" with
    | none => exact absurd hcc ((colIndex_eq_none_iff _ _).mp hi)
    | some i => exact ⟨i, rfl⟩
  have hproj : (projectCols data).rows.map (fun r => r.getD 0 "")
      = colVals data "condition" := projectCols_cond_vals data i hci
  have hcover : ∀ r ∈ (projectCols data).rows,
      r.getD 0 "" ∈ condRows.map CondRow.condition := by
    intro r hr
    have hm : r.getD 0 "" ∈ (projectCols data).rows.map (fun r => r.getD 0 "") :=
      List.mem_map_of_mem _ hr
    rw [hproj] at hm
    exact (sameSet_mem_iff _ _ hsame _).mp hm
  constructor
  · intro c
    rw [← hkeys]
    subst htbl
    have hvals : colVals
        ⟨mergedColsList,
         condRows.flatMap (fun k =>
           ((projectCols data).rows.filter
             (fun r => decide (r.getD 0 "" = k.condition))).map
             (fun r => [k.condition, k.condition_type, k.condition_subtype,
                        pyStr k.condition_year] ++ r.drop 1))⟩ "condition"
        = condRows.flatMap (fun k =>
            ((projectCols data).rows.filter
              (fun r => decide (r.getD 0 "" = k.condition))).map
              (fun _ => k.condition)) := by
      have h0 : colIndex mergedColsList "condition" = some 0 := by decide
      simp only [colVals, h0]
      rw [List.map_flatMap]
      congr 1
      funext k
      rw [List.map_map]
      apply List.map_congr_left
      intro r _
      rfl
    rw [hvals]
    constructor
    · intro hcm
      obtain ⟨k, hk, hck⟩ := List.mem_flatMap.mp hcm
      obtain ⟨r, -, hr⟩ := List.mem_map.mp hck
      exact hr ▸ List.mem_map_of_mem _ hk
    · intro hck
      obtain ⟨k, hk, hkc⟩ := List.mem_map.mp hck
      have hcd : c ∈ colVals data "condition" :=
        (sameSet_mem_iff _ _ hsame _).mpr hck
      rw [← hproj] at hcd
      obtain ⟨r, hrmem, hrc⟩ := List.mem_map.mp hcd
      refine List.mem_flatMap.mpr ⟨k, hk, ?_⟩
      refine List.mem_map.mpr ⟨r, List.mem_filter.mpr ⟨hrmem, ?_⟩, hkc⟩
      simp only [decide_eq_true_eq]
      rw [hrc, hkc]
  · subst htbl
    show (condRows.flatMap _).length = data.rows.length
    calc (condRows.flatMap (fun k =>
            ((projectCols data).rows.filter
              (fun r => decide (r.getD 0 "" = k.condition))).map
              (fun r => [k.condition, k.condition_type, k.condition_subtype,
                         pyStr k.condition_year] ++ r.drop 1))).length
        = (condRows.flatMap (fun k =>
            (projectCols data).rows.filter
              (fun r => decide (r.getD 0 "" = k.condition)))).length := by
          simp [List.length_flatMap, Function.comp_def]
      _ = ((condRows.map CondRow.condition).flatMap (fun key =>
            (projectCols data).rows.filter
              (fun r => decide (r.getD 0 "" = key)))).length := by
          rw [List.flatMap_map]
      _ = (projectCols data).rows.length :=
          flatMap_filter_length _ _ _ hnd hcover
      _ = data.rows.length := by simp [projectCols]

/-- Witness for C7, at the concrete study `exYaml` with measurement table
`exCsv`. -/
theorem c7_join_round_trip_witness :
    process_study exYaml exCsv =
      .ok ("Smith", .int 2021, "Nature", "https://example.org", exMerged) ∧
    ((∀ c, c ∈ colVals exMerged "condition" ↔ c ∈ exYaml.conditions.map Prod.fst) ∧
      exMerged.rows.length = exCsv.rows.length) :=
  ⟨rfl, c7_join_round_trip exYaml exCsv "Smith" "Nature" "https://example.org"
    (.int 2021) exMerged rfl⟩

/-- Claim C9: a measurement table containing the five required columns plus
any extra columns passes the required-column check (extra columns are not
an error), and the tagged output of a successful `process_study` has
exactly the nine canonical columns, whatever extra columns the input had
(the projection of source line 77 discards them). -/
theorem c9_extra_columns (study : StudyYaml) (data : Table)
    (s fa jr url : String) (yr : YVal) (tbl : Table) :
    ((∀ c ∈ requiredCols, c ∈ data.cols) → checkRequiredCols data = .ok ()) ∧
    (process_study study data = .ok (fa, yr, jr, url, tbl) →
      (assignStudy tbl s).cols =
        ["condition", "condition_type", "condition_subtype", "condition_year",
         "site", "wildtype", "mutation", "mut_escape", "study"]) := by
  constructor
  · intro hall
    unfold checkRequiredCols
    have hfind : requiredCols.find? (fun c => !decide (c ∈ data.cols)) = none := by
      rw [List.find?_eq_none]
      intro c hc
      simp [hall c hc]
    rw [hfind]
  · intro h
    obtain ⟨condRows, hres, hds, -, -, -⟩ := process_study_ok _ _ _ _ _ _ _ h
    obtain ⟨-, -, hmerge⟩ := dataStage_ok _ _ _ hds
    obtain ⟨-, htbl⟩ := mergeConditions_ok _ _ _ hmerge
    subst htbl
    rfl

/-- Witness for C9: with the extra `barcode` column, the required-column
check passes and the enriched output still has exactly the nine canonical
columns. -/
theorem c9_extra_columns_witness :
    checkRequiredCols exCsvExtra = .ok () ∧
    (assignStudy exMerged "2021_Smith_A").cols =
      ["condition", "condition_type", "condition_subtype", "condition_year",
       "site", "wildtype", "mutation", "mut_escape", "study"] :=
  ⟨(c9_extra_columns exYaml exCsvExtra "2021_Smith_A" "Smith" "Nature"
      "https://example.org" (.int 2021) exMerged).1 (by decide),
   (c9_extra_columns exYaml exCsvExtra "2021_Smith_A" "Smith" "Nature"
      "https://example.org" (.int 2021) exMerged).2 rfl⟩

theorem yearGate_invalid (y : YVal) (h : studyYearOk y = false) :
    yearGate y = .error (yearErr y) := by
  cases y with
  | int n =>
    simp only [studyYearOk] at h
    simp only [yearGate, valid_year, yearErr, h]
  | str s => rfl

/-- Claim C3 (amended): a study whose `study_year` is not an integer in
[2000, 2030] always fails, but the year check of source lines 84-85 runs
only after the whole measurement-data block of lines 64-78: the year error
is the one raised exactly when the data block succeeds, and a
measurement-table failure (such as a missing required column) preempts
it. -/
theorem c3_year_check_after_data_checks (study : StudyYaml) (data : Table)
    (h : studyYearOk study.study_year = false) :
    (∀ r, process_study study data ≠ .ok r) ∧
    (∀ condRows merged, resolveConditions study.conditions = .ok condRows →
      dataStage condRows data = .ok merged →
      process_study study data = .error (yearErr study.study_year)) := by
  have hyg : yearGate study.study_year = .error (yearErr study.study_year) :=
    yearGate_invalid _ h
  constructor
  · rintro ⟨fa, yr, jr, url, tbl⟩ hok
    obtain ⟨condRows, -, -, hy, -⟩ := process_study_ok _ _ _ _ _ _ _ hok
    rw [hyg] at hy
    cases hy
  · intro condRows merged hres hds
    simp only [process_study, hres, hds, hyg]

/-- Counterexample to claim C3 as stated: with an invalid `study_year`
(1999) and a measurement table lacking the required `site` column,
`process_study` raises the missing-column error, not the year error — the
year check does not precede the measurement-table checks. -/
theorem c3_year_after_join_counterexample :
    studyYearOk c3Yaml.study_year = false ∧
    process_study c3Yaml c3Csv =
      .error (.valueError ("data.csv lacks column site")) ∧
    PyErr.valueError ("data.csv lacks column site") ≠ yearErr c3Yaml.study_year :=
  ⟨by decide, rfl, by decide⟩

/-- Witness for the amended C3, at `c3Yaml` paired with the fully valid
measurement table `exCsv`: there the raised error is the year error. -/
theorem c3_year_check_witness :
    studyYearOk c3Yaml.study_year = false ∧
    process_study c3Yaml exCsv = .error (yearErr c3Yaml.study_year) :=
  ⟨by decide,
   (c3_year_check_after_data_checks c3Yaml exCsv (by decide)).2
     exCondRows exMerged rfl rfl⟩

theorem study_in_studies_false (s : String) (studies : List RegEntry) :
    study_in_studies s studies = false := by
  unfold study_in_studies pyEqStrTuple
  induction studies with
  | nil => rfl
  | cons e rest ih => simp

/-- Claim C1 (code bug): at a measurement table whose `condition` value
`C3` is absent from the metadata conditions, the run does abort, but with
the `AttributeError` raised while source lines 69-72 try to build the
symmetric-difference message (`data['condition']` has no
`symmetric_difference` attribute): no error listing `C3` is ever raised. -/
theorem c1_ref_integrity_attribute_error :
    process_study exYaml c1Csv =
      .error (.attributeError "Series object has no attribute symmetric_difference") :=
  rfl

/-- Claim C2 (code bug): the duplicate-study membership test of source line
124 compares the study string against the registry's 5-tuples and is
therefore constantly false, so the `ValueError("duplicate study ...")` of
line 125 is unreachable; processing the same study basename twice instead
trips the assertion of line 126 and aborts with `AssertionError`. -/
theorem c2_duplicate_study_assertion_error :
    (∀ (s : String) (studies : List RegEntry),
      study_in_studies s studies = false) ∧
    process_data ["2021_Smith_A", "2021_Smith_A"] exFs = .error .assertionError :=
  ⟨study_in_studies_false, rfl⟩

/-- Claim C5: for every study on which `process_study` succeeds (all
earlier checks pass), the loop step raises the naming-convention error if
and only if the directory basename does not start with the string
"{study_year}_{study_first_author}_" built from that study's metadata. -/
theorem c5_naming_convention_iff (fs : String → StudyYaml × Table)
    (st : LoopState) (subdir fa jr url : String) (yr : YVal) (tbl : Table)
    (h : process_study (fs subdir).1 (fs subdir).2 = .ok (fa, yr, jr, url, tbl)) :
    stepStudy fs st subdir = .error (.valueError (namingMsg subdir yr fa)) ↔
      pyStartsWith subdir (pyStr yr ++ "_" ++ fa ++ "_") = false := by
  simp only [stepStudy, h, study_in_studies_false, Bool.false_eq_true, if_false]
  by_cases hsw : pyStartsWith subdir (pyStr yr ++ "_" ++ fa ++ "_")
  · simp only [hsw, if_true]
    cases hac : assertCheck st.merged subdir with
    | error e =>
      have he : e = .assertionError := by
        unfold assertCheck at hac
        split at hac
        · cases hac
        · injection hac with h'
          exact h'.symm
      subst he
      simp [hsw]
    | ok u => simp [hsw]
  · rw [Bool.not_eq_true] at hsw
    simp [hsw]

/-- Witness for C5: the directory basename `2020_Jones_A` does not start
with the `2021_Smith_` prefix demanded by the metadata of `exYaml`, and the
loop step raises exactly the naming-convention error. -/
theorem c5_naming_convention_witness :
    pyStartsWith "2020_Jones_A" (pyStr (.int 2021) ++ "_" ++ "Smith" ++ "_") = false ∧
    stepStudy exFs initState "2020_Jones_A" =
      .error (.valueError (namingMsg "2020_Jones_A" (.int 2021) "Smith")) :=
  ⟨rfl,
   (c5_naming_convention_iff exFs initState "2020_Jones_A" "Smith" "Nature"
     "https://example.org" (.int 2021) exMerged rfl).mpr rfl⟩

/-- Claim C6: the merged escape table of any successful run contains no row
whose `condition_type` value is `"antibody cocktail"`: the exclusion filter
of source line 131 runs on the fully accumulated frame, after every study
passed validation. -/
theorem c6_no_cocktail_rows (listing : List String)
    (fs : String → StudyYaml × Table) (escape studiesT : Table)
    (i : Nat) (r : List String)
    (hok : process_data listing fs = .ok (escape, studiesT))
    (hi : colIndex escape.cols "condition_type" = some i)
    (hr : r ∈ escape.rows) :
    r.getD i "" ≠ "antibody cocktail" := by
  unfold process_data at hok
  split at hok
  · cases hok
  · rename_i st hfold
    split at hok
    · cases hok
    · rename_i esc hq
      split at hok
      · cases hok
      · rename_i ct hb
        injection hok with h'
        simp only [Prod.mk.injEq] at h'
        obtain ⟨hesc, -⟩ := h'
        subst hesc
        unfold queryFilter at hq
        split at hq
        · cases hq
        · rename_i j hj
          injection hq with hq'
          subst hq'
          simp only at hi
          rw [hj] at hi
          injection hi with hij
          subst hij
          simp only at hr
          have := (List.mem_filter.mp hr).2
          simpa using this

/-- Witness for C6: the single-study run over `exFs` (whose metadata defines
a fully valid antibody-cocktail condition `C2`) succeeds, and the surviving
output row is not cocktail-typed. -/
theorem c6_no_cocktail_rows_witness :
    process_data ["2021_Smith_A"] exFs = .ok (exEscape, exCite) ∧
    colIndex exEscape.cols "condition_type" = some 1 ∧
    ["C1", "antibody", "clinical antibody", "2020", "484", "E", "K", "0.5",
      "2021_Smith_A"] ∈ exEscape.rows ∧
    (["C1", "antibody", "clinical antibody", "2020", "484", "E", "K", "0.5",
      "2021_Smith_A"] : List String).getD 1 "" ≠ "antibody cocktail" :=
  ⟨rfl, rfl, by simp [exEscape],
   c6_no_cocktail_rows ["2021_Smith_A"] exFs exEscape exCite 1 _ rfl rfl
     (by simp [exEscape])⟩

/-- Claim C10: a run whose input root contains no (non-hidden) study
subdirectory reaches the exclusion filter with the empty, column-less
accumulator frame, and pandas `query` then fails on the unresolvable name
`condition_type` — the run errors out before writing any output, rather
than emitting two empty tables. -/
theorem c10_empty_run_fails (listing : List String)
    (fs : String → StudyYaml × Table)
    (h : listing.filter (fun d => !(pyStartsWith d ".")) = []) :
    process_data listing fs =
      .error (.undefinedVariableError "name condition_type is not defined") := by
  unfold process_data sortedSubdirs
  rw [h]
  rfl

/-- Witness for C10: a listing holding only the hidden directory
`.ipynb_checkpoints` is filtered down to no studies, and the run fails with
the undefined-name error of the exclusion filter. -/
theorem c10_empty_run_fails_witness :
    process_data [".ipynb_checkpoints"] exFs =
      .error (.undefinedVariableError "name condition_type is not defined") :=
  c10_empty_run_fails [".ipynb_checkpoints"] exFs rfl

theorem strLeChars_total (as : List Char) :
    ∀ bs, strLeChars as bs = true ∨ strLeChars bs as = true := by
  induction as with
  | nil => intro bs; left; rfl
  | cons a as ih =>
    intro bs
    cases bs with
    | nil => right; rfl
    | cons b bs' =>
      simp only [strLeChars]
      rcases Nat.lt_trichotomy a.val.toNat b.val.toNat with h | h | h
      · left; rw [if_pos h]
      · rw [if_neg (by omega), if_neg (by omega), if_neg (by omega),
            if_neg (by omega)]
        exact ih bs'
      · right; rw [if_pos h]

theorem strLeChars_trans (as : List Char) :
    ∀ bs cs, strLeChars as bs = true → strLeChars bs cs = true →
      strLeChars as cs = true := by
  induction as with
  | nil => intro bs cs _ _; rfl
  | cons a as ih =>
    intro bs cs h1 h2
    cases bs with
    | nil => exact absurd h1 (by simp [strLeChars])
    | cons b bs' =>
      cases cs with
      | nil => exact absurd h2 (by simp [strLeChars])
      | cons c cs' =>
        simp only [strLeChars] at h1 h2 ⊢
        rcases Nat.lt_trichotomy a.val.toNat b.val.toNat with hab | hab | hab
        · rcases Nat.lt_trichotomy b.val.toNat c.val.toNat with hbc | hbc | hbc
          · rw [if_pos (by omega)]
          · rw [if_pos (by omega)]
          · rw [if_neg (by omega), if_pos (by omega)] at h2; cases h2
        · rcases Nat.lt_trichotomy b.val.toNat c.val.toNat with hbc | hbc | hbc
          · rw [if_pos (by omega)]
          · rw [if_neg (by omega), if_neg (by omega)] at h1
            rw [if_neg (by omega), if_neg (by omega)] at h2
            rw [if_neg (by omega), if_neg (by omega)]
            exact ih bs' cs' h1 h2
          · rw [if_neg (by omega), if_pos (by omega)] at h2; cases h2
        · rw [if_neg (by omega), if_pos (by omega)] at h1; cases h1

theorem strLeChars_antisymm (as : List Char) :
    ∀ bs, strLeChars as bs = true → strLeChars bs as = true → as = bs := by
  induction as with
  | nil =>
    intro bs h1 h2
    cases bs with
    | nil => rfl
    | cons b bs' => exact absurd h2 (by simp [strLeChars])
  | cons a as ih =>
    intro bs h1 h2
    cases bs with
    | nil => exact absurd h1 (by simp [strLeChars])
    | cons b bs' =>
      simp only [strLeChars] at h1 h2
      rcases Nat.lt_trichotomy a.val.toNat b.val.toNat with hab | hab | hab
      · rw [if_neg (by omega), if_pos (by omega)] at h2; cases h2
      · rw [if_neg (by omega), if_neg (by omega)] at h1
        rw [if_neg (by omega), if_neg (by omega)] at h2
        have ha : a = b := Char.ext (UInt32.ext hab)
        rw [ha, ih bs' h1 h2]
      · rw [if_neg (by omega), if_pos (by omega)] at h1; cases h1

/-- Claim C8: the pipeline is deterministic in the directory enumeration
order: two listings that are permutations of each other produce identical
output, because the code sorts the study directories (source line 99)
before processing and every later step (joining, accumulation, citation
suffixes) is a pure function of that sorted order. -/
theorem c8_order_determinism (l1 l2 : List String)
    (fs : String → StudyYaml × Table) (hperm : l1.Perm l2) :
    process_data l1 fs = process_data l2 fs := by
  haveI : IsTotal String (fun a b => strLe a b = true) :=
    ⟨fun a b => strLeChars_total a.toList b.toList⟩
  haveI : IsTrans String (fun a b => strLe a b = true) :=
    ⟨fun a b c h1 h2 => strLeChars_trans a.toList b.toList c.toList h1 h2⟩
  haveI : IsAntisymm String (fun a b => strLe a b = true) :=
    ⟨fun a b h1 h2 => String.ext (strLeChars_antisymm a.toList b.toList h1 h2)⟩
  have hsort : sortedSubdirs l1 = sortedSubdirs l2 := by
    unfold sortedSubdirs
    have hp : (List.insertionSort (fun a b => strLe a b = true)
          (l1.filter (fun d => !(pyStartsWith d ".")))).Perm
        (List.insertionSort (fun a b => strLe a b = true)
          (l2.filter (fun d => !(pyStartsWith d ".")))) :=
      (List.perm_insertionSort _ _).trans
        ((hperm.filter _).trans (List.perm_insertionSort _ _).symm)
    exact List.eq_of_perm_of_sorted hp (List.sorted_insertionSort _ _)
      (List.sorted_insertionSort _ _)
  unfold process_data
  rw [hsort]

/-- Witness for C8: the two enumeration orders of the studies
`2021_Smith_A` and `2021_Smith_B` produce the same output. -/
theorem c8_order_determinism_witness :
    process_data ["2021_Smith_B", "2021_Smith_A"] exFs =
      process_data ["2021_Smith_A", "2021_Smith_B"] exFs :=
  c8_order_determinism ["2021_Smith_B", "2021_Smith_A"]
    ["2021_Smith_A", "2021_Smith_B"] exFs
    (List.Perm.swap "2021_Smith_A" "2021_Smith_B" [])

theorem citeSuffix_ok (ndup idx : Nat) (hlt : idx < ndup) (hle : ndup ≤ 26) :
    citeSuffix ndup idx =
      .ok (if ndup < 2 then "" else String.mk [asciiLowercase.getD idx 'a']) := by
  unfold citeSuffix
  by_cases h2 : ndup < 2
  · rw [if_pos h2, if_pos h2]
  · rw [if_neg h2, if_neg h2]
    have hlen : idx < asciiLowercase.length := by
      have h26 : asciiLowercase.length = 26 := rfl
      omega
    rw [List.getElem?_eq_getElem hlen, List.getD_eq_getElem _ _ hlen]

theorem citeRows_eq_spec (rest : List RegEntry) :
    ∀ prev : List RegEntry,
      (∀ e ∈ prev ++ rest,
        (prev ++ rest).countP (fun p => decide (regKey p = regKey e)) ≤ 26) →
      citeRows prev rest = .ok ((rest.enumFrom prev.length).map (fun ie =>
        [ie.2.study, citeStr ie.2 (specSuffix (prev ++ rest) ie.1 ie.2),
         ie.2.url])) := by
  induction rest with
  | nil => intro prev h; rfl
  | cons e rest' ih =>
    intro prev h
    have hcons : prev ++ e :: rest' = (prev ++ [e]) ++ rest' :=
      List.append_cons prev e rest'
    have hfull : (prev ++ e :: rest').countP
          (fun p => decide (regKey p = regKey e))
        = prev.countP (fun p => decide (regKey p = regKey e)) + 1 +
          rest'.countP (fun p => decide (regKey p = regKey e)) := by
      rw [List.countP_append, List.countP_cons]
      simp only [decide_eq_true_eq, if_pos trivial]
      omega
    have hle : prev.countP (fun p => decide (regKey p = regKey e)) + 1 +
        rest'.countP (fun p => decide (regKey p = regKey e)) ≤ 26 := by
      rw [← hfull]
      exact h e (by simp)
    have h' : ∀ e' ∈ (prev ++ [e]) ++ rest',
        ((prev ++ [e]) ++ rest').countP
          (fun p => decide (regKey p = regKey e')) ≤ 26 := by
      intro e' he'
      rw [← hcons] at he' ⊢
      exact h e' he'
    have hhead : specSuffix (prev ++ e :: rest') prev.length e =
        (if prev.countP (fun p => decide (regKey p = regKey e)) + 1 +
             rest'.countP (fun p => decide (regKey p = regKey e)) < 2 then ""
         else String.mk [asciiLowercase.getD
           (prev.countP (fun p => decide (regKey p = regKey e))) 'a']) := by
      unfold specSuffix
      rw [hfull, List.take_left prev (e :: rest')]
    simp only [citeRows]
    rw [citeSuffix_ok _ _ (by omega) hle, ih (prev ++ [e]) h']
    simp only [List.enumFrom_cons, List.map_cons]
    rw [hhead, hcons]
    simp [List.length_append]

/-- Claim C4 (amended): for every registry in which each
(first_author, year, journal) group has at most 26 members, the citation
table is exactly the claim's description: a lone group member gets
"{first_author} et al. {journal} ({year})" with no suffix; in a group of
two or more, members get the suffixes a, b, ... in order of occurrence,
and rows keep the registry's original study order.  (With 27 or more
members in one group the build instead raises `IndexError`; see the
counterexample.) -/
theorem c4_citation_suffixes (reg : List RegEntry)
    (h : ∀ e ∈ reg, reg.countP (fun p => decide (regKey p = regKey e)) ≤ 26) :
    buildCitations reg = .ok ⟨["study", "citation", "url"], citationRowsSpec reg⟩ := by
  unfold buildCitations citationRowsSpec
  rw [citeRows_eq_spec reg [] (by simpa using h)]
  simp

/-- Counterexample to claim C4 as stated: in a registry of 27 studies
sharing one (first_author, year, journal) triple, the suffix of the 27th
member would index `string.ascii_lowercase[26]`, and the citation build
aborts with `IndexError` instead of giving every member a citation. -/
theorem c4_suffix_27_index_error :
    buildCitations (List.replicate 27 smithEntry) =
      .error (.indexError "string index out of range") := rfl

/-- Witness for the amended C4, on a concrete registry: the duplicated
(Smith, 2021, Nature) studies get suffixes `a` and `b` in processing
order, the lone study gets none, and row order is registry order. -/
theorem c4_citation_suffixes_witness :
    (∀ e ∈ c4Reg, c4Reg.countP (fun p => decide (regKey p = regKey e)) ≤ 26) ∧
    buildCitations c4Reg =
      .ok ⟨["study", "citation", "url"], citationRowsSpec c4Reg⟩ ∧
    citationRowsSpec c4Reg =
      [["2021_Smith_A", "Smith et al. Nature (2021a)", "u1"],
       ["2021_Smith_B", "Smith et al. Nature (2021b)", "u2"],
       ["2020_Jones_A", "Jones et al. Science (2020)", "u3"]] :=
  ⟨by decide, c4_citation_suffixes c4Reg (by decide), rfl⟩
